import Mathlib

/-!
Verification of the chat facade servers of this repository.

The repository consists of small Python HTTP servers
(`gemma2_server.py`, `FIXED_GEMMA_SERVER.py`, `start_gemma2_server.py`,
`simple_tinyllama_server.py`) that expose an OpenAI-style
`POST /v1/chat/completions` endpoint answering with canned manufacturing
texts selected by keyword matching, plus two Flask proxy variants
(`docs/colab-setup-simple.py`, `docs/google-colab-setup.py`) that forward
`POST /api/generate` to a local Ollama endpoint.

This file shallowly embeds the request handlers:
* Python strings become Lean `String`; `word in s` (substring test) is
  `pyIn`; `s.lower()` is `pyLower` (per-character ASCII lowering).
* A chat message JSON object becomes `Msg` with optional `role` /
  `content` fields; reading a missing key (Python `KeyError`) is an
  `Except.error` carrying a nominal exception message.
* The HTTP layer is elided down to the handler's decision: a handler is a
  function from the request path and parsed body to the response it sends
  (`Option HttpResp`, `none` when the handler sends no response at all,
  as happens in handlers whose `do_POST` has no `else`, and when the
  Content-Length parse or body read — both placed before the `try` —
  raises, which is `ReqBody.readFailure`).
* The long canned response texts are copied from the sources verbatim;
  f-string templates are split around their single `{query}` hole.
-/

/-- Bool test that `needle` is a prefix of `hay` (character lists). -/
def listPrefixOf : List Char → List Char → Bool
  | [], _ => true
  | _ :: _, [] => false
  | a :: as, b :: bs => a = b && listPrefixOf as bs

/-- Bool test that `needle` occurs contiguously inside `hay`, as Python's
`needle in hay` does for strings. -/
def listSubstr : List Char → List Char → Bool
  | needle, [] => needle.isEmpty
  | needle, b :: bs => listPrefixOf needle (b :: bs) || listSubstr needle bs

/-- Python `s.lower()`: lower-case every character. -/
def pyLower (s : String) : String := ⟨s.data.map Char.toLower⟩

/-- Python `needle in hay` on strings: contiguous substring test. -/
def pyIn (needle hay : String) : Bool := listSubstr needle.data hay.data

/-- Python `any(word in hay for word in words)`. -/
def pyAnyIn (words : List String) (hay : String) : Bool :=
  words.any (fun w => pyIn w hay)

/-- One element of the request's `messages` list. Both fields are optional
because a JSON message object need not carry a `role` or `content` key;
the Python code indexes `msg['role']` / `msg['content']` and raises
`KeyError` when the key is missing. -/
structure Msg where
  role : Option String
  content : Option String
deriving DecidableEq, Repr

/-- Nominal rendering of the Python `KeyError` raised by `msg['role']`. -/
def keyErrorRole : String := "KeyError: role"

/-- Nominal rendering of the Python `KeyError` raised by `msg['content']`. -/
def keyErrorContent : String := "KeyError: content"

/-- Nominal rendering of the `json.JSONDecodeError` raised by `json.loads`. -/
def jsonDecodeError : String := "JSONDecodeError"

/-- The user-query extraction loop shared verbatim by every server file:

```
user_query = ""
for msg in messages:
    if msg['role'] == 'user':
        user_query = msg['content']
        break
```

Returns `Except.error` when a `KeyError` escapes the loop (caught by the
surrounding `try`), otherwise `Except.ok` with the extracted query. -/
def extract_user_query : List Msg → Except String String
  | [] => Except.ok ""
  | m :: rest =>
    match m.role with
    | none => Except.error keyErrorRole
    | some r =>
      if r = "user" then
        match m.content with
        | none => Except.error keyErrorContent
        | some c => Except.ok c
      else extract_user_query rest

/-- Input characterisation: the extraction loop reaches a user message and
reads its content without raising, i.e. every message before the first
`role = "user"` message carries a `role` key and that first user message
carries a `content` key. -/
def scanFindsUser : List Msg → Bool
  | [] => false
  | m :: rest =>
    match m.role with
    | none => false
    | some r => if r = "user" then m.content.isSome else scanFindsUser rest

/-- The content of the first message whose role is `"user"` (empty string
when there is none or it has no content). -/
def firstUserContent (ms : List Msg) : String :=
  (((ms.find? (fun m => m.role == some "user")).bind Msg.content).getD "")

/-- A message of a chat response body. -/
structure ChatMessage where
  role : String
  content : String
deriving DecidableEq, Repr

/-- One element of `choices` in a chat response body. -/
structure Choice where
  message : ChatMessage
  finish_reason : String
deriving DecidableEq, Repr

/-- The JSON body written on a successful `POST /v1/chat/completions`. -/
structure ChatResponse where
  choices : List Choice
  model : String
deriving DecidableEq, Repr

/-- Primitive JSON values appearing in the health bodies. -/
inductive JVal
  | s (v : String)
  | b (v : Bool)
  | n (v : Nat)
deriving DecidableEq, Repr

/-- The body a handler writes with a response. -/
inductive RespBody
  | chatJson (r : ChatResponse)
  | errJson (msg : String)
  | objJson (fields : List (String × JVal))
  | modelsJson (id object : String) (created : Nat) (owned_by : String)
  | empty
deriving DecidableEq, Repr

/-- An HTTP response as sent by a handler: status code plus body. -/
structure HttpResp where
  status : Nat
  body : RespBody
deriving DecidableEq, Repr

/-- Outcome of obtaining and parsing the POST body on the chat path. In
every server file `content_length = int(self.headers['Content-Length'])`
and `self.rfile.read(content_length)` run on the chat path before the
`try` begins: a missing or non-numeric Content-Length header raises there
with nothing to catch it (`readFailure`), so the handler sends no
response at all. Inside the `try`, `json.loads` may raise (`malformed`);
otherwise the parsed object's `messages` key is present
(`parsed (some ms)`) or absent (`parsed none`, defaulted to `[]` by
`request_data.get('messages', [])`). -/
inductive ReqBody
  | readFailure
  | malformed
  | parsed (messages : Option (List Msg))
deriving DecidableEq, Repr

deriving instance DecidableEq for Except


-- gemma2_server.py texts
def g2failureText : String :=
"**Manufacturing Failure Analysis (Gemma 2B)**

Key failure patterns identified in your production data:

**Critical Failure Categories:**
â€¢ Inventory Management: 42 High Bay Warehouse issues (44.2%)
â€¢ Equipment Sensors: 31 validation failures (32.6%) 
â€¢ Network/Connectivity: 14 communication errors (14.7%)
â€¢ RFID/NFC Systems: 8 reading failures (8.4%)

**High-Impact Equipment:**
â€¢ /pm/punch_gill station: 2.90% failure rate (requires immediate attention)
â€¢ Quality control sensors: Intermittent calibration drift
â€¢ Conveyor control systems: Network timeout issues

**Root Cause Analysis:**
1. **Inventory Issues**: JSON condition validation failures in warehouse systems
2. **Sensor Degradation**: Environmental factors affecting precision instruments
3. **Network Instability**: Peak hour bandwidth congestion (10-12 AM)
4. **Component Aging**: RFID readers showing 15% accuracy decline

**Recommended Actions:**
- Implement predictive maintenance for sensor systems
- Upgrade network infrastructure in critical zones
- Deploy redundant inventory validation protocols
- Schedule equipment recalibration during low-activity periods

This analysis is based on your actual manufacturing data with 95 documented failures across 301 production cases."

def g2anomalyText : String :=
"**Anomaly Detection Report (Gemma 2B Analysis)**

Comprehensive anomaly analysis of your manufacturing processes:

**Anomaly Overview:**
â€¢ Total detected: 170 anomalies in 3,157 activities (5.4% baseline rate)
â€¢ Severity distribution: 28 severe, 89 moderate, 53 minor deviations
â€¢ Peak periods: Morning startup (8-10 AM) and shift changes

**Temporal Patterns:**
â€¢ Hour 10: 46 anomalies (highest concentration)
â€¢ Hour 14: 38 anomalies (afternoon peak)
â€¢ Night shift: 12% lower anomaly rate (more stable conditions)

**Process Impact Analysis:**
â€¢ Severe anomalies (>200% deviation): Equipment malfunction indicators
â€¢ Moderate anomalies (50-200% deviation): Process optimization opportunities
â€¢ Minor anomalies (<50% deviation): Normal process variation

**Equipment-Specific Anomalies:**
â€¢ Processing stations: 67 timing deviations
â€¢ Quality control: 34 threshold breaches  
â€¢ Material handling: 29 flow interruptions
â€¢ Assembly operations: 18 sequence violations

**Predictive Insights:**
- Morning startup procedures need optimization
- Equipment warmup sequences causing initial instability
- Material quality variations correlate with anomaly spikes
- Preventive maintenance windows identified for maximum efficiency

Real-time monitoring recommendations: Deploy continuous anomaly scoring with 2-sigma threshold alerts."

def g2bottleneckText : String :=
"**Process Bottleneck Analysis (Gemma 2B)**

Detailed performance analysis revealing critical constraints:

**Primary Bottlenecks Identified:**
â€¢ Processing Station: 342-second average (46% above target)
â€¢ Quality Inspection: 156-second queuing delays
â€¢ Material Transfer: 45-second inter-station gaps
â€¢ Assembly Coordination: 28% utilization inefficiency

**Performance Metrics:**
â€¢ Average processing time: 235.28 seconds per case
â€¢ Target processing time: 180 seconds per case
â€¢ Current efficiency: 76.2% of theoretical maximum
â€¢ Success rate: 10% (indicating systemic throughput issues)

**Constraint Analysis:**
1. **Capacity Limitation**: Single-threaded processing at critical stations
2. **Synchronization Issues**: Misaligned station timing cycles  
3. **Manual Intervention**: Quality checks requiring human validation
4. **Resource Contention**: Shared equipment creating wait states

**Flow Optimization Opportunities:**
â€¢ Parallel processing implementation: +35% throughput potential
â€¢ Automated quality screening: -60% inspection delays
â€¢ Predictive material staging: -25% transfer times
â€¢ Load balancing algorithms: +20% overall efficiency

**Investment Priorities:**
1. High ROI: Automated quality systems (8-month payback)
2. Medium ROI: Parallel processing lanes (14-month payback)  
3. Strategic: Predictive analytics platform (24-month payback)

Implementation of these recommendations could achieve 195-second average processing time (17% improvement)."

def g2equipmentText : String :=
"**Equipment Performance Analysis (Gemma 2B)**

Comprehensive equipment health and performance assessment:

**Equipment Status Dashboard:**
â€¢ Active production lines: 12 stations
â€¢ Overall equipment effectiveness: 78.4%
â€¢ Critical maintenance alerts: 3 stations
â€¢ Optimal performance: 7 stations

**Performance by Station:**
â€¢ /pm/punch_gill: **CRITICAL** - 2.90% failure rate, requires immediate service
â€¢ /pm/quality_check: **MODERATE** - 28-second average delays, calibration needed
â€¢ /pm/assembly: **OPTIMAL** - 98.2% uptime, exceeding targets
â€¢ /pm/packaging: **CONSTRAINED** - capacity limitations identified

**Predictive Maintenance Indicators:**
â€¢ Vibration analysis: Station 7 bearing wear detected
â€¢ Temperature monitoring: Processing zone thermal variations
â€¢ Pressure systems: Gradual degradation in pneumatic circuits
â€¢ Electrical systems: Power quality issues in Zone 3

**Maintenance Priority Matrix:**
1. **Immediate (0-7 days)**: Punch/gill station repair
2. **Scheduled (1-4 weeks)**: Quality sensor recalibration
3. **Planned (1-3 months)**: Bearing replacement Station 7
4. **Strategic (3-6 months)**: Zone 3 electrical upgrade

**Cost-Benefit Analysis:**
â€¢ Current failure costs: $12,400/week
â€¢ Preventive maintenance investment: $45,000
â€¢ Projected savings: 65% reduction in unplanned downtime
â€¢ ROI timeline: 8.2 months

**Recommended Actions:**
- Implement condition-based monitoring for early failure detection
- Deploy IoT sensors for real-time equipment health tracking
- Establish maintenance windows during low-production periods
- Create equipment performance dashboards for operators"

def g2defaultTextPre : String :=
"**Manufacturing Process Analysis (Gemma 2B)**

Analyzing your production data with Google's Gemma 2B model:

**Dataset Overview:**
â€¢ Manufacturing cases: 301 complete workflows
â€¢ Process events: 9,471 individual operations  
â€¢ Activities tracked: 3,157 distinct manufacturing steps
â€¢ Anomalies detected: 170 (5.4% of total activities)
â€¢ Data timespan: Multi-day production cycle analysis

**Query Received:** \""

def g2defaultTextPost : String :=
"\"

**Available Analysis Capabilities:**
â€¢ **Failure Analysis**: Root cause identification and prevention strategies
â€¢ **Anomaly Detection**: Statistical deviation analysis with temporal patterns
â€¢ **Bottleneck Analysis**: Throughput constraints and optimization recommendations  
â€¢ **Equipment Performance**: Health monitoring and predictive maintenance
â€¢ **Process Optimization**: Efficiency improvements and workflow enhancement
â€¢ **Quality Control**: Defect pattern analysis and prevention protocols

**Gemma 2B Advantages:**
- Advanced pattern recognition in manufacturing data
- Contextual understanding of industrial processes
- Real-time analysis capabilities with local data privacy
- Integration with existing manufacturing systems

**Next Steps:**
Please specify your area of interest:
- \"Analyze failure patterns\" for root cause investigation
- \"Show me bottlenecks\" for performance optimization
- \"Equipment status\" for maintenance planning
- \"Anomaly trends\" for quality improvement

All analysis uses your authentic manufacturing data with complete local processing - no external data transmission required."

def g2defaultText (query : String) : String :=
g2defaultTextPre ++ query ++ g2defaultTextPost

-- FIXED_GEMMA_SERVER.py texts
def fxFailureText : String :=
"Manufacturing Failure Analysis - Gemma 2B Local

Running on your computer at C:/Users/rober/my-ai-model/

Primary Failure Categories Identified:
- Equipment Sensor Malfunctions: 32% of total failures
- Inventory System Issues: 28% of failures (High Bay Warehouse)
- Network Communication Problems: 22% of failures
- RFID/Component Reading Errors: 18% of failures

Critical Equipment Requiring Attention:
- Station /pm/punch_gill: 2.90% failure rate (immediate service needed)
- Quality control sensors: Intermittent calibration drift
- Conveyor control systems: Network timeout during peak operations

Root Cause Analysis:
1. Environmental factors affecting sensor precision instruments
2. JSON validation failures in inventory management systems
3. Network bandwidth saturation during peak production hours
4. Component degradation in RFID reading systems

Actionable Recommendations:
- Schedule predictive maintenance for high-failure equipment
- Implement redundant network pathways for critical systems
- Deploy backup sensor validation protocols
- Plan component replacement during scheduled downtime periods

This analysis processes your authentic manufacturing data locally with complete privacy."

def fxAnomalyText : String :=
"Anomaly Detection Analysis - Gemma 2B Local Processing

Anomaly Overview from Your Manufacturing Data:
- Total anomalies detected: 170 across 3,157 manufacturing activities
- Anomaly rate: 5.4% of total operations
- Classification: 28 severe, 89 moderate, 53 minor deviations

Temporal Anomaly Patterns:
- Peak anomaly period: Hour 10 with 46 detected anomalies
- Secondary peak: Hour 14 with 38 anomalies
- Lowest anomaly rates: Night shift operations
- Pattern correlation: Higher anomalies during shift transitions

Equipment-Specific Anomaly Distribution:
- Processing stations: 67 timing deviations detected
- Quality control systems: 34 threshold breaches
- Material handling equipment: 29 flow interruptions
- Assembly operations: 18 sequence violations

Severity Classification:
- Severe anomalies (>200% deviation): Equipment malfunction indicators
- Moderate anomalies (50-200%): Process optimization opportunities
- Minor anomalies (<50%): Normal operational variation

Predictive Maintenance Insights:
- Morning startup procedures show consistent anomaly spikes
- Equipment warmup sequences causing process instability
- Material quality variations correlate with anomaly increases
- Optimal maintenance windows identified during low-anomaly periods

All processing performed locally on your machine with complete data confidentiality."

def fxDefaultTextPre : String :=
"Manufacturing Process Analysis - Gemma 2B Local

Your Query: \""

def fxDefaultTextPost : String :=
"\"

Local AI Status:
- Gemma 2B model running locally from: C:/Users/rober/my-ai-model/
- Complete data privacy maintained - no external transmission
- Manufacturing dataset: 301 cases, 9,471 events analyzed
- Anomalies detected: 170 process deviations identified

Available Manufacturing Analysis:
- Failure pattern analysis and root cause identification
- Anomaly detection with temporal correlation mapping
- Bottleneck identification and capacity optimization strategies
- Equipment performance monitoring and predictive maintenance
- Process timing analysis and efficiency optimization
- Quality control pattern analysis and improvement recommendations

Your Manufacturing Data Overview:
- Complete workflows analyzed: 301 manufacturing cases
- Individual operations tracked: 9,471 process events
- Manufacturing activities: 3,157 distinct process steps
- Current success rate: 10% (improvement opportunities identified)

Next Analysis Options:
Specify your area of focus:
- \"Analyze failure patterns\" for root cause investigation
- \"Show bottlenecks\" for performance optimization
- \"Equipment status\" for maintenance planning
- \"Anomaly trends\" for quality improvement initiatives

All analysis performed locally on your computer - manufacturing data remains completely private."

def fxDefaultText (query : String) : String :=
fxDefaultTextPre ++ query ++ fxDefaultTextPost

-- start_gemma2_server.py texts
def stFailureText : String :=
"**Manufacturing Failure Analysis - Gemma 2B Local**

Based on your production data analysis:

**Primary Failure Categories:**
• Equipment Sensor Issues: 32% of all failures
• Inventory Management Problems: 28% of failures  
• Network Connectivity: 22% of failures
• RFID/Component Reading: 18% of failures

**Critical Equipment Status:**
• Station /pm/punch_gill: 2.90% failure rate (immediate attention needed)
• Quality control sensors: Intermittent calibration drift detected
• Conveyor systems: Network timeout issues during peak hours

**Root Cause Analysis:**
1. Environmental factors affecting sensor precision
2. Inventory validation JSON parsing failures
3. Peak hour network bandwidth saturation
4. Component aging in RFID reading systems

**Recommendations:**
- Implement predictive maintenance scheduling
- Upgrade network infrastructure in manufacturing zones  
- Deploy redundant sensor validation protocols
- Schedule component replacement during planned downtime

This analysis uses your authentic manufacturing data with complete local privacy."

def stAnomalyText : String :=
"**Anomaly Detection Report - Gemma 2B Local Analysis**

Comprehensive anomaly patterns in your manufacturing processes:

**Anomaly Overview:**
• Total detected: 170 anomalies across 3,157 activities
• Anomaly rate: 5.4% of total manufacturing operations
• Severity: 28 severe, 89 moderate, 53 minor deviations

**Temporal Distribution:**
• Peak anomaly period: Hour 10 (46 anomalies)
• Secondary peak: Hour 14 (38 anomalies)  
• Lowest anomaly rate: Night shift operations
• Pattern: Higher anomalies during shift transitions

**Process Impact Categories:**
• Severe (>200% deviation): Equipment malfunction indicators
• Moderate (50-200% deviation): Process optimization opportunities
• Minor (<50% deviation): Normal operational variation

**Equipment-Specific Analysis:**
• Processing stations: 67 timing deviations
• Quality control: 34 threshold breaches
• Material handling: 29 flow interruptions
• Assembly operations: 18 sequence violations

**Predictive Insights:**
- Morning startup procedures require optimization
- Equipment warmup sequences causing initial instability
- Material quality variations correlate with anomaly spikes
- Preventive maintenance windows identified

Local analysis ensures complete data confidentiality."

def stBottleneckText : String :=
"**Process Bottleneck Analysis - Gemma 2B Local**

Performance constraints identified in your manufacturing workflow:

**Primary Bottlenecks:**
• Processing Station: 342-second average (46% above target)
• Quality Inspection: 156-second average queuing delays
• Material Transfer: 45-second inter-station gaps
• Assembly Coordination: 28% utilization inefficiency

**Current Performance Metrics:**
• Average processing time: 235.28 seconds per case
• Target processing time: 180 seconds per case  
• Current efficiency: 76.2% of theoretical maximum
• Success rate: 10% (indicating systemic issues)

**Constraint Analysis:**
1. Capacity Limitation: Single-threaded processing bottleneck
2. Synchronization Issues: Misaligned station timing cycles
3. Manual Dependencies: Quality validation requiring human intervention
4. Resource Contention: Shared equipment creating wait states

**Optimization Opportunities:**
• Parallel processing implementation: +35% throughput potential
• Automated quality screening: -60% inspection delays
• Predictive material staging: -25% transfer times
• Load balancing algorithms: +20% overall efficiency

**Investment ROI Analysis:**
• High ROI: Automated quality systems (8-month payback)
• Medium ROI: Parallel processing lanes (14-month payback)
• Strategic: Predictive analytics platform (24-month payback)

Target improvement: 195-second average processing time (17% improvement).
All analysis performed locally on your machine."

def stDefaultTextPre : String :=
"**Manufacturing Process Analysis - Gemma 2B Local**

Your query: \""

def stDefaultTextPost : String :=
"\"

**Local AI Analysis Status:**
✓ Gemma 2B model running locally on your computer
✓ Complete data privacy maintained 
✓ Manufacturing data analyzed: 301 cases, 9,471 events
✓ Anomalies detected: 170 process deviations
✓ No external data transmission

**Available Analysis Capabilities:**
• Failure pattern analysis and root cause identification
• Anomaly detection with temporal correlation analysis
• Bottleneck identification and capacity optimization
• Equipment performance monitoring and predictions
• Process timing analysis and efficiency optimization
• Quality control pattern analysis

**Your Data Overview:**
• Manufacturing cases: 301 complete workflows
• Process events: 9,471 individual operations
• Activities tracked: 3,157 manufacturing steps
• Success rate: 10% (improvement opportunities identified)

**Next Steps:**
Specify your area of interest:
- \"Analyze failure patterns\" for root cause investigation
- \"Show bottlenecks\" for performance optimization  
- \"Equipment status\" for maintenance planning
- \"Anomaly trends\" for quality improvement

All processing happens locally - your manufacturing data never leaves your computer."

def stDefaultText (query : String) : String :=
stDefaultTextPre ++ query ++ stDefaultTextPost

-- simple_tinyllama_server.py texts
def tlFailureText : String :=
"Based on the manufacturing data analysis, I can identify several key failure patterns:

**Primary Failure Categories:**
- Inventory Management Issues (45% of failures)
- Equipment Sensor Malfunctions (32% of failures) 
- Network Connectivity Problems (15% of failures)
- RFID/NFC Reading Errors (8% of failures)

**Most Critical Equipment:**
- High Bay Warehouse systems show highest failure rates
- /pm/punch_gill activity has 2.90% failure rate
- Conveyor systems experiencing intermittent issues

**Recommendations:**
1. Implement predictive maintenance for sensor systems
2. Upgrade network infrastructure in manufacturing zones
3. Regular calibration of RFID readers
4. Enhanced inventory monitoring protocols

Would you like me to analyze specific failure patterns or equipment performance metrics?"

def tlAnomalyText : String :=
"Anomaly detection analysis reveals significant patterns in your manufacturing data:

**Anomaly Summary:**
- Total anomalies detected: 170 out of 3,157 activities (5.4% anomaly rate)
- Peak anomaly periods: Hour 10-12 during production shifts
- Most affected processes: Material handling and quality control

**Critical Anomalies:**
- Processing time deviations >200% of baseline (severe)
- Equipment downtime patterns (moderate)
- Quality control threshold breaches (high priority)

**Temporal Patterns:**
- Morning shift (8-10 AM): 46 anomalies detected
- Afternoon peak (2-4 PM): 38 anomalies detected
- Equipment warmup periods show elevated anomaly rates

**Action Items:**
1. Investigate morning shift startup procedures
2. Review equipment calibration schedules
3. Analyze material quality variations
4. Implement real-time anomaly alerts

The data suggests systematic issues during shift transitions that require immediate attention."

def tlBottleneckText : String :=
"Bottleneck analysis identifies critical process constraints:

**Primary Bottlenecks:**
- Station /pm/processing: Average 342 seconds (highest processing time)
- Quality control checkpoint: 15% capacity utilization
- Material transfer between stations: 45-second average delay

**Performance Metrics:**
- Overall process efficiency: 73.2%
- Average case completion time: 235.28 seconds
- Success rate: 10% (indicating systemic issues)

**Root Causes:**
1. Insufficient parallel processing capacity
2. Manual quality inspection creating queues
3. Outdated material handling equipment
4. Lack of automated routing optimization

**Optimization Recommendations:**
- Add parallel processing lanes at critical stations
- Implement automated quality screening
- Upgrade conveyor systems for faster material flow
- Deploy predictive routing algorithms

These improvements could increase throughput by 25-30% based on current data patterns."

def tlEquipmentText : String :=
"Equipment performance analysis across your manufacturing floor:

**Equipment Status Overview:**
- Total active stations: 12 production lines
- Average uptime: 87.3%
- Critical maintenance required: 3 stations

**Performance by Station:**
- /pm/punch_gill: Highest failure rate (2.90%)
- /pm/quality_check: Moderate delays (avg 28 sec)
- /pm/assembly: Optimal performance (98.2% uptime)
- /pm/packaging: Capacity constraints detected

**Maintenance Priorities:**
1. **High Priority:** Punch/gill station requires immediate attention
2. **Medium Priority:** Quality check station calibration
3. **Low Priority:** Routine maintenance for assembly line

**Predictive Insights:**
- Sensor data indicates bearing wear in Station 7
- Vibration patterns suggest belt replacement needed
- Temperature variations in processing zone require investigation

**Cost Impact:**
- Current failures cost approximately $12,400/week
- Preventive maintenance could reduce costs by 65%
- ROI on equipment upgrades: 8-12 months

Recommend implementing condition-based monitoring for early failure detection."

def tlTimeText : String :=
"Temporal analysis of manufacturing processes reveals important timing patterns:

**Process Timing Overview:**
- Average processing time: 235.28 seconds per case
- Fastest completion: 89 seconds
- Slowest completion: 847 seconds (potential outlier)

**Time Distribution:**
- 70% of cases complete within 180-280 seconds
- 20% experience moderate delays (300-450 seconds)
- 10% suffer significant delays (>500 seconds)

**Peak Performance Hours:**
- 6 AM - 8 AM: Optimal processing times (avg 198 sec)
- 2 PM - 4 PM: Slowest period (avg 289 sec)
- Night shift: Consistent performance (avg 225 sec)

**Delay Analysis:**
- Equipment warmup: +15% processing time
- Material changeovers: +25% processing time
- Quality holds: +40% processing time

**Optimization Opportunities:**
1. Pre-warm equipment during shift changes
2. Batch similar materials to reduce changeovers
3. Implement parallel quality checks
4. Deploy real-time process monitoring

Target improvement: Reduce average processing time to 195 seconds (17% improvement)."

def tlDefaultTextPre : String :=
"Thank you for your manufacturing process inquiry. I'm analyzing your production data which contains:

**Dataset Summary:**
- 301 manufacturing cases processed
- 9,471 individual process events
- 3,157 distinct activities tracked
- 170 anomalies identified (5.4% rate)

**Analysis Capabilities Available:**
- Failure pattern analysis and root cause identification
- Anomaly detection with temporal correlation
- Bottleneck analysis and capacity optimization
- Equipment performance monitoring
- Process timing and efficiency metrics
- Quality control insights

**Your Question:** \""

def tlDefaultTextPost : String :=
"\"

For more detailed analysis, please specify:
- Which aspect interests you most (failures, timing, equipment, etc.)
- Specific time periods or equipment to focus on
- Whether you need operational recommendations

I can provide deeper insights into any manufacturing process area using your authentic production data."

def tlDefaultText (query : String) : String :=
tlDefaultTextPre ++ query ++ tlDefaultTextPost

namespace Gemma2Server

/-- `Gemma2Handler.generate_gemma_response` of `gemma2_server.py`:
keyword dispatch over the lowercased query, first match wins. -/
def generate_gemma_response (query : String) : String :=
let query_lower := pyLower query
if pyAnyIn ["failure", "fail", "error"] query_lower then g2failureText
else if pyAnyIn ["anomaly", "anomalies", "unusual"] query_lower then g2anomalyText
else if pyAnyIn ["bottleneck", "slow", "delay", "time"] query_lower then g2bottleneckText
else if pyAnyIn ["equipment", "machine", "station"] query_lower then g2equipmentText
else g2defaultText query

/-- `Gemma2Handler.do_GET` of `gemma2_server.py`. `now` stands for
`int(time.time())` read when building the models listing. -/
def do_GET (now : Nat) (path : String) : HttpResp :=
if path = "/health" then
  ⟨200, RespBody.objJson [("status", JVal.s "healthy"), ("model", JVal.s "Gemma-2B-IT"),
    ("model_loaded", JVal.b true), ("provider", JVal.s "Google AI")]⟩
else if path = "/v1/models" then
  ⟨200, RespBody.modelsJson "gemma-2b-it" "model" now "google"⟩
else ⟨404, RespBody.empty⟩

/-- `Gemma2Handler.do_POST` of `gemma2_server.py`. The Content-Length
parse and body read (lines 42-43) sit before the `try` (line 45), so a
`readFailure` escapes the handler and no response is sent; errors raised
inside the `try` are answered 500 with an error body. -/
def do_POST (path : String) (body : ReqBody) : Option HttpResp :=
if path = "/v1/chat/completions" then
  match body with
  | ReqBody.readFailure => none
  | ReqBody.malformed => some ⟨500, RespBody.errJson jsonDecodeError⟩
  | ReqBody.parsed messages? =>
    match extract_user_query (messages?.getD []) with
    | Except.error e => some ⟨500, RespBody.errJson e⟩
    | Except.ok q =>
      some ⟨200, RespBody.chatJson ⟨[⟨⟨"assistant", generate_gemma_response q⟩, "stop"⟩], "gemma-2b-it"⟩⟩
else some ⟨404, RespBody.empty⟩

end Gemma2Server

namespace FixedGemmaServer

/-- `Gemma2Handler.generate_manufacturing_response` of
`FIXED_GEMMA_SERVER.py`: only failure and anomaly branches exist. -/
def generate_manufacturing_response (query : String) : String :=
let query_lower := pyLower query
if pyAnyIn ["failure", "fail", "error"] query_lower then fxFailureText
else if pyAnyIn ["anomaly", "anomalies", "unusual"] query_lower then fxAnomalyText
else fxDefaultText query

/-- `Gemma2Handler.do_GET` of `FIXED_GEMMA_SERVER.py` (health only). -/
def do_GET (path : String) : HttpResp :=
if path = "/health" then
  ⟨200, RespBody.objJson [("status", JVal.s "healthy"), ("model", JVal.s "Gemma-2B-Local-Private"),
    ("model_loaded", JVal.b true),
    ("location", JVal.s "C:/Users/rober/my-ai-model/models/gemma-2b-it/"),
    ("privacy", JVal.s "complete_local_processing")]⟩
else ⟨404, RespBody.empty⟩

/-- `Gemma2Handler.do_POST` of `FIXED_GEMMA_SERVER.py`. There is no
`else` branch: on any other path the handler sends no response. -/
def do_POST (path : String) (body : ReqBody) : Option HttpResp :=
if path = "/v1/chat/completions" then
  match body with
  | ReqBody.readFailure => none
  | ReqBody.malformed => some ⟨500, RespBody.errJson jsonDecodeError⟩
  | ReqBody.parsed messages? =>
    match extract_user_query (messages?.getD []) with
    | Except.error e => some ⟨500, RespBody.errJson e⟩
    | Except.ok q =>
      some ⟨200, RespBody.chatJson ⟨[⟨⟨"assistant", generate_manufacturing_response q⟩, "stop"⟩], "gemma-2b-local"⟩⟩
else none

end FixedGemmaServer

namespace StartGemma2Server

/-- `Gemma2LocalHandler.generate_manufacturing_response` of
`start_gemma2_server.py`: its bottleneck keyword list reads
`['bottleneck', 'slow', 'delay', 'performance']`. -/
def generate_manufacturing_response (query : String) : String :=
let query_lower := pyLower query
if pyAnyIn ["failure", "fail", "error"] query_lower then stFailureText
else if pyAnyIn ["anomaly", "anomalies", "unusual"] query_lower then stAnomalyText
else if pyAnyIn ["bottleneck", "slow", "delay", "performance"] query_lower then stBottleneckText
else stDefaultText query

/-- `Gemma2LocalHandler.do_GET` of `start_gemma2_server.py`. -/
def do_GET (now : Nat) (path : String) : HttpResp :=
if path = "/health" then
  ⟨200, RespBody.objJson [("status", JVal.s "healthy"), ("model", JVal.s "Gemma-2B-Local"),
    ("model_loaded", JVal.b true), ("privacy", JVal.s "complete")]⟩
else if path = "/v1/models" then
  ⟨200, RespBody.modelsJson "gemma-2b-local" "model" now "local"⟩
else ⟨404, RespBody.empty⟩

/-- `Gemma2LocalHandler.do_POST` of `start_gemma2_server.py`. There is no
`else` branch: on any other path the handler sends no response. -/
def do_POST (path : String) (body : ReqBody) : Option HttpResp :=
if path = "/v1/chat/completions" then
  match body with
  | ReqBody.readFailure => none
  | ReqBody.malformed => some ⟨500, RespBody.errJson jsonDecodeError⟩
  | ReqBody.parsed messages? =>
    match extract_user_query (messages?.getD []) with
    | Except.error e => some ⟨500, RespBody.errJson e⟩
    | Except.ok q =>
      some ⟨200, RespBody.chatJson ⟨[⟨⟨"assistant", generate_manufacturing_response q⟩, "stop"⟩], "gemma-2b-local"⟩⟩
else none

end StartGemma2Server

namespace TinyLlamaServer

/-- `TinyLlamaHandler.generate_manufacturing_response` of
`simple_tinyllama_server.py`. -/
def generate_manufacturing_response (query : String) : String :=
let query_lower := pyLower query
if pyAnyIn ["failure", "fail", "error"] query_lower then tlFailureText
else if pyAnyIn ["anomaly", "anomalies", "unusual"] query_lower then tlAnomalyText
else if pyAnyIn ["bottleneck", "slow", "delay"] query_lower then tlBottleneckText
else if pyAnyIn ["equipment", "machine", "station"] query_lower then tlEquipmentText
else if pyAnyIn ["time", "duration", "speed"] query_lower then tlTimeText
else tlDefaultText query

/-- `TinyLlamaHandler.do_GET` of `simple_tinyllama_server.py`. -/
def do_GET (now : Nat) (path : String) : HttpResp :=
if path = "/health" then
  ⟨200, RespBody.objJson [("status", JVal.s "healthy"), ("model", JVal.s "TinyLlama-1.1B-Chat"),
    ("model_loaded", JVal.b true)]⟩
else if path = "/v1/models" then
  ⟨200, RespBody.modelsJson "tinyllama-chat" "model" now "tinyllama"⟩
else ⟨404, RespBody.empty⟩

/-- `TinyLlamaHandler.do_POST` of `simple_tinyllama_server.py`. -/
def do_POST (path : String) (body : ReqBody) : Option HttpResp :=
if path = "/v1/chat/completions" then
  match body with
  | ReqBody.readFailure => none
  | ReqBody.malformed => some ⟨500, RespBody.errJson jsonDecodeError⟩
  | ReqBody.parsed messages? =>
    match extract_user_query (messages?.getD []) with
    | Except.error e => some ⟨500, RespBody.errJson e⟩
    | Except.ok q =>
      some ⟨200, RespBody.chatJson ⟨[⟨⟨"assistant", generate_manufacturing_response q⟩, "stop"⟩], "tinyllama-chat"⟩⟩
else some ⟨404, RespBody.empty⟩

end TinyLlamaServer

/-- Outcome of the proxied `requests.post` call: either an upstream HTTP
response (status plus already-decoded JSON body), or a raised exception
(timeout or connection failure) carrying its message. -/
inductive UpResult (α : Type)
  | ok (status : Nat) (body : α)
  | exc (msg : String)
deriving DecidableEq, Repr

/-- The JSON body a Flask proxy route returns. -/
inductive ProxyBody (α : Type)
  | json (v : α)
  | errJson (msg : String)
deriving DecidableEq, Repr

/-- The `timeout=60` argument both proxy variants pass to `requests.post`. -/
def colab_timeout : Nat := 60

/-- The `/api/generate` route of `docs/colab-setup-simple.py`:

```
data = request.json
response = requests.post('http://localhost:11434/api/generate', json=data, timeout=60)
return jsonify(response.json())
```

`upstream` abstracts the inference endpoint as a function of the forwarded
payload and the timeout. Note `jsonify(response.json())` returns Flask's
default status 200 whatever `response.status_code` was. -/
def colabSimpleGenerate {α : Type} (upstream : α → Nat → UpResult α) (data : α) :
    Nat × ProxyBody α :=
  match upstream data colab_timeout with
  | UpResult.ok _ b => (200, ProxyBody.json b)
  | UpResult.exc m => (500, ProxyBody.errJson m)

/-- The `/api/generate` route of `docs/google-colab-setup.py`: relays the
upstream body with status 200 only when the upstream status is 200, and
otherwise answers 500 with `{"error": f"Ollama error: {status}"}`. -/
def colabFullGenerate {α : Type} (upstream : α → Nat → UpResult α) (data : α) :
    Nat × ProxyBody α :=
  match upstream data colab_timeout with
  | UpResult.ok s b =>
    if s = 200 then (200, ProxyBody.json b)
    else (500, ProxyBody.errJson ("Ollama error: " ++ toString s))
  | UpResult.exc m => (500, ProxyBody.errJson m)

/-- Extraction skips any leading block of messages that carry a non-user
role. -/
theorem extract_skip : ∀ (l1 rest : List Msg),
    (∀ x ∈ l1, ∃ r, x.role = some r ∧ r ≠ "user") →
    extract_user_query (l1 ++ rest) = extract_user_query rest
  | [], _, _ => rfl
  | x :: l1, rest, h => by
    obtain ⟨r, hr, hru⟩ := h x (List.mem_cons_self x l1)
    simp only [List.cons_append, extract_user_query, hr, hru, if_false]
    exact extract_skip l1 rest (fun y hy => h y (List.mem_cons_of_mem x hy))

/-- When the scan succeeds, extraction returns the content of the first
user-role message. -/
theorem extract_ok_firstUser : ∀ ms : List Msg, scanFindsUser ms = true →
    extract_user_query ms = Except.ok (firstUserContent ms)
  | [], h => by simp [scanFindsUser] at h
  | m :: rest, h => by
    cases hr : m.role with
    | none => rw [scanFindsUser] at h; simp [hr] at h
    | some r =>
      by_cases hru : r = "user"
      · subst hru
        rw [scanFindsUser] at h
        simp only [hr, if_true, reduceIte] at h
        obtain ⟨c, hc⟩ := Option.isSome_iff_exists.mp h
        simp [extract_user_query, firstUserContent, List.find?, hr, hc]
      · rw [scanFindsUser] at h
        simp only [hr, hru, reduceIte] at h
        have ih := extract_ok_firstUser rest h
        have hbe : (r == "user") = false := beq_eq_false_iff_ne.mpr hru
        simp [extract_user_query, firstUserContent, List.find?, hr, hru, hbe] at ih ⊢
        exact ih

/-- When every message has a non-user role, extraction returns the empty
string. -/
theorem extract_ok_empty : ∀ ms : List Msg,
    (∀ m ∈ ms, ∃ r, m.role = some r ∧ r ≠ "user") →
    extract_user_query ms = Except.ok ""
  | [], _ => rfl
  | m :: rest, h => by
    obtain ⟨r, hr, hru⟩ := h m (List.mem_cons_self m rest)
    simp only [extract_user_query, hr, hru, if_false]
    exact extract_ok_empty rest (fun y hy => h y (List.mem_cons_of_mem m hy))

/-- Extraction never looks past the first user-role message: the tail after
it is irrelevant. -/
theorem extract_suffix_indep : ∀ (l1 : List Msg) (m : Msg) (l2 l2' : List Msg),
    m.role = some "user" →
    extract_user_query (l1 ++ m :: l2) = extract_user_query (l1 ++ m :: l2')
  | [], m, l2, l2', hm => by simp [extract_user_query, hm]
  | x :: l1, m, l2, l2', hm => by
    cases hr : x.role with
    | none => simp [extract_user_query, hr]
    | some r =>
      by_cases hru : r = "user"
      · subst hru; simp [extract_user_query, hr]
      · simp only [List.cons_append, extract_user_query, hr, hru, if_false]
        exact extract_suffix_indep l1 m l2 l2' hm

/-- The default template of `gemma2_server.py` interpolates the query, so
the query occurs verbatim in its output. -/
theorem g2default_echoes (q : String) : q.data <:+: (g2defaultText q).data :=
  ⟨g2defaultTextPre.data, g2defaultTextPost.data, rfl⟩

/-- The default template of `FIXED_GEMMA_SERVER.py` interpolates the query,
so the query occurs verbatim in its output. -/
theorem fxdefault_echoes (q : String) : q.data <:+: (fxDefaultText q).data :=
  ⟨fxDefaultTextPre.data, fxDefaultTextPost.data, rfl⟩

/-- C1 counterexample: a JSON body whose messages list does contain a
user-role message, yet where a preceding message lacks its `role` key, is
answered with status 500, not 200: the claim as stated fails on the code
of `gemma2_server.py` and `simple_tinyllama_server.py`. -/
theorem C1_counterexample :
    ([Msg.mk none (some "x"), Msg.mk (some "user") (some "hi")].any
        (fun m => m.role == some "user") = true)
    ∧ Gemma2Server.do_POST "/v1/chat/completions"
        (ReqBody.parsed (some [Msg.mk none (some "x"), Msg.mk (some "user") (some "hi")]))
        = some ⟨500, RespBody.errJson keyErrorRole⟩
    ∧ TinyLlamaServer.do_POST "/v1/chat/completions"
        (ReqBody.parsed (some [Msg.mk none (some "x"), Msg.mk (some "user") (some "hi")]))
        = some ⟨500, RespBody.errJson keyErrorRole⟩ :=
  ⟨by decide, by rfl, by rfl⟩

/-- C1 (amended): for every JSON body whose messages list contains a
user-role message, and in which every message before the first user-role
message carries a `role` key and that first user-role message carries a
`content` key, `POST /v1/chat/completions` answers 200 with
`choices[0].message.role = "assistant"` and `finish_reason = "stop"`, on
both `gemma2_server.py` and `simple_tinyllama_server.py`. -/
theorem C1_success_response (ms : List Msg) (h : scanFindsUser ms = true) :
    Gemma2Server.do_POST "/v1/chat/completions" (ReqBody.parsed (some ms))
      = some ⟨200, RespBody.chatJson ⟨[⟨⟨"assistant",
          Gemma2Server.generate_gemma_response (firstUserContent ms)⟩, "stop"⟩], "gemma-2b-it"⟩⟩
    ∧ TinyLlamaServer.do_POST "/v1/chat/completions" (ReqBody.parsed (some ms))
      = some ⟨200, RespBody.chatJson ⟨[⟨⟨"assistant",
          TinyLlamaServer.generate_manufacturing_response (firstUserContent ms)⟩, "stop"⟩], "tinyllama-chat"⟩⟩ := by
  have he := extract_ok_firstUser ms h
  constructor <;> simp [Gemma2Server.do_POST, TinyLlamaServer.do_POST, he]

/-- C1 witness: the amended success property at a concrete request. -/
theorem C1_success_response_witness :
    scanFindsUser [Msg.mk (some "user") (some "hello")] = true
    ∧ Gemma2Server.do_POST "/v1/chat/completions"
        (ReqBody.parsed (some [Msg.mk (some "user") (some "hello")]))
      = some ⟨200, RespBody.chatJson ⟨[⟨⟨"assistant",
          Gemma2Server.generate_gemma_response
            (firstUserContent [Msg.mk (some "user") (some "hello")])⟩, "stop"⟩], "gemma-2b-it"⟩⟩ :=
  ⟨by decide, (C1_success_response [Msg.mk (some "user") (some "hello")] (by decide)).1⟩

/-- C2: the query passed to the classifier is the content of the first
user-role message in list order; with only non-user messages it is the
empty string; an absent `messages` key defaults to the empty list; and the
request `{"messages": []}` is answered 200 with the Default-topic text for
the empty query, on `gemma2_server.py` and `FIXED_GEMMA_SERVER.py`. -/
theorem C2_query_extraction :
    (∀ ms : List Msg, scanFindsUser ms = true →
        extract_user_query ms = Except.ok (firstUserContent ms))
    ∧ (∀ ms : List Msg, (∀ m ∈ ms, ∃ r, m.role = some r ∧ r ≠ "user") →
        extract_user_query ms = Except.ok "")
    ∧ Gemma2Server.do_POST "/v1/chat/completions" (ReqBody.parsed none)
        = some ⟨200, RespBody.chatJson ⟨[⟨⟨"assistant", g2defaultText ""⟩, "stop"⟩], "gemma-2b-it"⟩⟩
    ∧ Gemma2Server.do_POST "/v1/chat/completions" (ReqBody.parsed (some []))
        = some ⟨200, RespBody.chatJson ⟨[⟨⟨"assistant", g2defaultText ""⟩, "stop"⟩], "gemma-2b-it"⟩⟩
    ∧ FixedGemmaServer.do_POST "/v1/chat/completions" (ReqBody.parsed (some []))
        = some ⟨200, RespBody.chatJson ⟨[⟨⟨"assistant", fxDefaultText ""⟩, "stop"⟩], "gemma-2b-local"⟩⟩ :=
  ⟨extract_ok_firstUser, extract_ok_empty, by rfl, by rfl, by rfl⟩

/-- C2 witness: first-user extraction at a concrete two-message list. -/
theorem C2_query_extraction_witness :
    scanFindsUser [Msg.mk (some "system") (some "s"), Msg.mk (some "user") (some "q1")] = true
    ∧ extract_user_query [Msg.mk (some "system") (some "s"), Msg.mk (some "user") (some "q1")]
        = Except.ok (firstUserContent
            [Msg.mk (some "system") (some "s"), Msg.mk (some "user") (some "q1")]) :=
  ⟨by decide, C2_query_extraction.1 _ (by decide)⟩

/-- C3: a query whose lowercased text contains both a failure keyword and
an anomaly keyword always selects the Failure-Analysis text, in all four
canned servers, because the failure branch is tested first. -/
theorem C3_failure_priority (q : String)
    (hfail : pyAnyIn ["failure", "fail", "error"] (pyLower q) = true)
    (hanom : pyAnyIn ["anomaly", "anomalies", "unusual"] (pyLower q) = true) :
    Gemma2Server.generate_gemma_response q = g2failureText
    ∧ FixedGemmaServer.generate_manufacturing_response q = fxFailureText
    ∧ StartGemma2Server.generate_manufacturing_response q = stFailureText
    ∧ TinyLlamaServer.generate_manufacturing_response q = tlFailureText := by
  refine ⟨?_, ?_, ?_, ?_⟩ <;>
    simp [Gemma2Server.generate_gemma_response,
      FixedGemmaServer.generate_manufacturing_response,
      StartGemma2Server.generate_manufacturing_response,
      TinyLlamaServer.generate_manufacturing_response, hfail]

/-- C3 witness: the priority property at the query from the spec. -/
theorem C3_failure_priority_witness :
    pyAnyIn ["failure", "fail", "error"] (pyLower "what failure anomalies occurred") = true
    ∧ pyAnyIn ["anomaly", "anomalies", "unusual"] (pyLower "what failure anomalies occurred") = true
    ∧ Gemma2Server.generate_gemma_response "what failure anomalies occurred" = g2failureText :=
  ⟨by decide, by decide,
    (C3_failure_priority "what failure anomalies occurred" (by decide) (by decide)).1⟩

/-- C4 counterexample: `content_length = int(self.headers['Content-Length'])`
and `self.rfile.read(content_length)` run before the `try`
(`gemma2_server.py` lines 42-43, likewise `simple_tinyllama_server.py`):
a missing or non-numeric Content-Length header raises there, the
exception is not caught at the handler boundary, and no response — in
particular no 500 with an error body — is ever sent. -/
theorem C4_counterexample :
    Gemma2Server.do_POST "/v1/chat/completions" ReqBody.readFailure = none
    ∧ TinyLlamaServer.do_POST "/v1/chat/completions" ReqBody.readFailure = none := by
  decide

/-- C4 (amended): on `POST /v1/chat/completions` of `gemma2_server.py`, a
body whose JSON parse fails is answered 500 with an error body, and every
body that is read successfully is answered either 200 or 500-with-error:
errors raised inside the `try` block are caught and converted to a JSON
error body. But the Content-Length parse and body read precede the `try`,
and an error there propagates out of the handler with no response sent at
all. -/
theorem C4_error_handling :
    Gemma2Server.do_POST "/v1/chat/completions" ReqBody.malformed
      = some ⟨500, RespBody.errJson jsonDecodeError⟩
    ∧ (∀ messages? : Option (List Msg), ∃ r : HttpResp,
        Gemma2Server.do_POST "/v1/chat/completions" (ReqBody.parsed messages?) = some r
        ∧ (r.status = 200 ∨ (r.status = 500 ∧ ∃ m, r.body = RespBody.errJson m)))
    ∧ Gemma2Server.do_POST "/v1/chat/completions" ReqBody.readFailure = none := by
  refine ⟨by rfl, ?_, by rfl⟩
  intro messages?
  cases he : extract_user_query (messages?.getD []) with
  | error e =>
    refine ⟨⟨500, RespBody.errJson e⟩, ?_, Or.inr ⟨rfl, e, rfl⟩⟩
    simp [Gemma2Server.do_POST, he]
  | ok q =>
    refine ⟨⟨200, RespBody.chatJson ⟨[⟨⟨"assistant",
        Gemma2Server.generate_gemma_response q⟩, "stop"⟩], "gemma-2b-it"⟩⟩, ?_, Or.inl rfl⟩
    simp [Gemma2Server.do_POST, he]

/-- C5 counterexample: the claimed five-word bottleneck keyword set is not
what the code tests. The query "performance" is in the claimed set, yet
`gemma2_server.py` (whose list omits performance) returns the Default
text, not the Bottleneck text; and `FIXED_GEMMA_SERVER.py` has no
bottleneck branch at all, so even "bottleneck" gets the Default text. -/
theorem C5_counterexample :
    pyAnyIn ["bottleneck", "slow", "delay", "time", "performance"] (pyLower "performance") = true
    ∧ pyAnyIn ["failure", "fail", "error"] (pyLower "performance") = false
    ∧ pyAnyIn ["anomaly", "anomalies", "unusual"] (pyLower "performance") = false
    ∧ Gemma2Server.generate_gemma_response "performance" = g2defaultText "performance"
    ∧ Gemma2Server.generate_gemma_response "performance" ≠ g2bottleneckText
    ∧ FixedGemmaServer.generate_manufacturing_response "bottleneck" = fxDefaultText "bottleneck" :=
  ⟨by decide, by decide, by decide, by rfl, by decide, by rfl⟩

/-- C5 (amended): for a query with no failure and no anomaly keyword,
`gemma2_server.py` selects the Bottleneck text when the query contains one
of bottleneck, slow, delay, time (performance is not in its list);
`start_gemma2_server.py` when it contains one of bottleneck, slow, delay,
performance (time is not in its list); and `FIXED_GEMMA_SERVER.py`, which
has no bottleneck branch, always returns the Default text. -/
theorem C5_bottleneck_selection (q : String)
    (hfail : pyAnyIn ["failure", "fail", "error"] (pyLower q) = false)
    (hanom : pyAnyIn ["anomaly", "anomalies", "unusual"] (pyLower q) = false) :
    (pyAnyIn ["bottleneck", "slow", "delay", "time"] (pyLower q) = true →
        Gemma2Server.generate_gemma_response q = g2bottleneckText)
    ∧ (pyAnyIn ["bottleneck", "slow", "delay", "performance"] (pyLower q) = true →
        StartGemma2Server.generate_manufacturing_response q = stBottleneckText)
    ∧ FixedGemmaServer.generate_manufacturing_response q = fxDefaultText q := by
  refine ⟨?_, ?_, ?_⟩
  · intro hb; simp [Gemma2Server.generate_gemma_response, hfail, hanom, hb]
  · intro hb; simp [StartGemma2Server.generate_manufacturing_response, hfail, hanom, hb]
  · simp [FixedGemmaServer.generate_manufacturing_response, hfail, hanom]

/-- C5 witness: the amended bottleneck property at the query "slow". -/
theorem C5_bottleneck_selection_witness :
    pyAnyIn ["failure", "fail", "error"] (pyLower "slow") = false
    ∧ pyAnyIn ["anomaly", "anomalies", "unusual"] (pyLower "slow") = false
    ∧ pyAnyIn ["bottleneck", "slow", "delay", "time"] (pyLower "slow") = true
    ∧ Gemma2Server.generate_gemma_response "slow" = g2bottleneckText :=
  ⟨by decide, by decide, by decide,
    (C5_bottleneck_selection "slow" (by decide) (by decide)).1 (by decide)⟩

/-- C6: a query matching none of the keyword sets gets the Default text,
which contains the literal original query string, on `gemma2_server.py`
and `FIXED_GEMMA_SERVER.py`. -/
theorem C6_default_echo (q : String)
    (hfail : pyAnyIn ["failure", "fail", "error"] (pyLower q) = false)
    (hanom : pyAnyIn ["anomaly", "anomalies", "unusual"] (pyLower q) = false)
    (hbott : pyAnyIn ["bottleneck", "slow", "delay", "time"] (pyLower q) = false)
    (hequip : pyAnyIn ["equipment", "machine", "station"] (pyLower q) = false) :
    Gemma2Server.generate_gemma_response q = g2defaultText q
    ∧ q.data <:+: (Gemma2Server.generate_gemma_response q).data
    ∧ FixedGemmaServer.generate_manufacturing_response q = fxDefaultText q
    ∧ q.data <:+: (FixedGemmaServer.generate_manufacturing_response q).data := by
  have h1 : Gemma2Server.generate_gemma_response q = g2defaultText q := by
    simp [Gemma2Server.generate_gemma_response, hfail, hanom, hbott, hequip]
  have h2 : FixedGemmaServer.generate_manufacturing_response q = fxDefaultText q := by
    simp [FixedGemmaServer.generate_manufacturing_response, hfail, hanom]
  exact ⟨h1, h1 ▸ g2default_echoes q, h2, h2 ▸ fxdefault_echoes q⟩

/-- C6 witness: the default-echo property at the query from the spec. -/
theorem C6_default_echo_witness :
    pyAnyIn ["failure", "fail", "error"] (pyLower "hello there") = false
    ∧ Gemma2Server.generate_gemma_response "hello there" = g2defaultText "hello there"
    ∧ ("hello there" : String).data <:+: (Gemma2Server.generate_gemma_response "hello there").data :=
  ⟨by decide,
    (C6_default_echo "hello there" (by decide) (by decide) (by decide) (by decide)).1,
    (C6_default_echo "hello there" (by decide) (by decide) (by decide) (by decide)).2.1⟩

/-- C7 counterexample: with two user-role messages the extracted query is
the content of the first, not the latest: the claim as stated fails. -/
theorem C7_counterexample :
    extract_user_query [Msg.mk (some "user") (some "first question"),
        Msg.mk (some "user") (some "second question")] = Except.ok "first question"
    ∧ ("first question" : String) ≠ "second question" :=
  ⟨by rfl, by decide⟩

/-- C7 (amended): the server extracts the earliest user message: whenever
the messages list contains two or more user-role messages (and the scan
reaches the first one cleanly), the query classified is the content of the
first such message in list order. -/
theorem C7_first_user_selected (ms : List Msg)
    (htwo : 2 ≤ (ms.filter (fun m => m.role == some "user")).length)
    (h : scanFindsUser ms = true) :
    extract_user_query ms = Except.ok (firstUserContent ms) :=
  extract_ok_firstUser ms h

/-- C7 witness: the amended first-user property at a two-user list. -/
theorem C7_first_user_selected_witness :
    2 ≤ (([Msg.mk (some "user") (some "a"), Msg.mk (some "user") (some "b")].filter
        (fun m => m.role == some "user")).length)
    ∧ extract_user_query [Msg.mk (some "user") (some "a"), Msg.mk (some "user") (some "b")]
        = Except.ok (firstUserContent
            [Msg.mk (some "user") (some "a"), Msg.mk (some "user") (some "b")]) :=
  ⟨by decide,
    C7_first_user_selected [Msg.mk (some "user") (some "a"), Msg.mk (some "user") (some "b")]
      (by decide) (by decide)⟩

/-- C8 counterexample: the `do_POST` of `FIXED_GEMMA_SERVER.py` and of
`start_gemma2_server.py` have no else branch: on a non-matching path they
send no response at all, rather than a 404 with empty body. -/
theorem C8_counterexample :
    FixedGemmaServer.do_POST "/unknown" (ReqBody.parsed none) = none
    ∧ StartGemma2Server.do_POST "/unknown" (ReqBody.parsed none) = none := by
  decide

/-- C8 (amended): on any path outside the routing table,
`gemma2_server.py` and `simple_tinyllama_server.py` answer 404 with an
empty body on both GET and POST, and so do the GET handlers of
`FIXED_GEMMA_SERVER.py` and `start_gemma2_server.py`; but the POST
handlers of those two files send no response at all. -/
theorem C8_unknown_route (p : String) (now : Nat) (b : ReqBody)
    (hh : p ≠ "/health") (hm : p ≠ "/v1/models") (hc : p ≠ "/v1/chat/completions") :
    Gemma2Server.do_GET now p = ⟨404, RespBody.empty⟩
    ∧ Gemma2Server.do_POST p b = some ⟨404, RespBody.empty⟩
    ∧ TinyLlamaServer.do_GET now p = ⟨404, RespBody.empty⟩
    ∧ TinyLlamaServer.do_POST p b = some ⟨404, RespBody.empty⟩
    ∧ FixedGemmaServer.do_GET p = ⟨404, RespBody.empty⟩
    ∧ FixedGemmaServer.do_POST p b = none
    ∧ StartGemma2Server.do_GET now p = ⟨404, RespBody.empty⟩
    ∧ StartGemma2Server.do_POST p b = none := by
  refine ⟨?_, ?_, ?_, ?_, ?_, ?_, ?_, ?_⟩ <;>
    simp [Gemma2Server.do_GET, Gemma2Server.do_POST, TinyLlamaServer.do_GET,
      TinyLlamaServer.do_POST, FixedGemmaServer.do_GET, FixedGemmaServer.do_POST,
      StartGemma2Server.do_GET, StartGemma2Server.do_POST, hh, hm, hc]

/-- C8 witness: the amended unknown-route property at a concrete path. -/
theorem C8_unknown_route_witness :
    Gemma2Server.do_GET 0 "/nope" = ⟨404, RespBody.empty⟩
    ∧ Gemma2Server.do_POST "/nope" ReqBody.malformed = some ⟨404, RespBody.empty⟩ :=
  ⟨(C8_unknown_route "/nope" 0 ReqBody.malformed (by decide) (by decide) (by decide)).1,
    (C8_unknown_route "/nope" 0 ReqBody.malformed (by decide) (by decide) (by decide)).2.1⟩

/-- C9 counterexample: neither proxy relays the upstream status code. With
an upstream answering 502, `colab-setup-simple.py` answers 200 with the
upstream body, and `google-colab-setup.py` answers 500 with an error body
instead of relaying the upstream body and status. -/
theorem C9_counterexample :
    colabSimpleGenerate (fun _ _ => UpResult.ok 502 (7 : Nat)) 0 = (200, ProxyBody.json 7)
    ∧ (colabSimpleGenerate (fun _ _ => UpResult.ok 502 (7 : Nat)) 0).1 ≠ 502
    ∧ colabFullGenerate (fun _ _ => UpResult.ok 502 (7 : Nat)) 0
        = (500, ProxyBody.errJson "Ollama error: 502")
    ∧ (colabFullGenerate (fun _ _ => UpResult.ok 502 (7 : Nat)) 0).2 ≠ ProxyBody.json 7 := by
  refine ⟨by rfl, by decide, by rfl, by decide⟩

/-- C9 (amended): both proxies forward the payload unmodified with a
60-second timeout and answer 500 with an error body on a raised timeout or
connection failure; a 200 upstream response is relayed as 200 with its
body; but on a non-200 upstream status `colab-setup-simple.py` still
answers 200 with the upstream body while `google-colab-setup.py` answers
500 with an error body — neither relays the upstream status code. -/
theorem C9_proxy_relay {α : Type} (upstream : α → Nat → UpResult α) (data : α)
    (s : Nat) (b : α) (m : String) :
    colab_timeout = 60
    ∧ (upstream data colab_timeout = UpResult.exc m →
        colabSimpleGenerate upstream data = (500, ProxyBody.errJson m)
        ∧ colabFullGenerate upstream data = (500, ProxyBody.errJson m))
    ∧ (upstream data colab_timeout = UpResult.ok 200 b →
        colabSimpleGenerate upstream data = (200, ProxyBody.json b)
        ∧ colabFullGenerate upstream data = (200, ProxyBody.json b))
    ∧ (upstream data colab_timeout = UpResult.ok s b → s ≠ 200 →
        colabSimpleGenerate upstream data = (200, ProxyBody.json b)
        ∧ colabFullGenerate upstream data = (500, ProxyBody.errJson ("Ollama error: " ++ toString s))) := by
  refine ⟨rfl, ?_, ?_, ?_⟩
  · intro h
    constructor <;> simp [colabSimpleGenerate, colabFullGenerate, h]
  · intro h
    constructor <;> simp [colabSimpleGenerate, colabFullGenerate, h]
  · intro h hs
    constructor <;> simp [colabSimpleGenerate, colabFullGenerate, h, hs]

/-- C9 witness: the timeout/connection-failure branch at a concrete
upstream. -/
theorem C9_proxy_relay_witness :
    (fun (_ : Nat) (_ : Nat) => UpResult.exc (α := Nat) "timed out") 0 colab_timeout
      = UpResult.exc "timed out"
    ∧ colabSimpleGenerate (fun _ _ => UpResult.exc (α := Nat) "timed out") 0
      = (500, ProxyBody.errJson "timed out") :=
  ⟨by rfl,
    ((C9_proxy_relay (fun _ _ => UpResult.exc (α := Nat) "timed out") 0 0 0 "timed out").2.1
      (by rfl)).1⟩

/-- C10: a missing `role` key at or before the first user-role message, or
a missing `content` key on that first user-role message, makes
`POST /v1/chat/completions` answer 500 with an error body (on
`gemma2_server.py` and `FIXED_GEMMA_SERVER.py`), and messages after the
first user-role message are never inspected. -/
theorem C10_missing_key_500 :
    (∀ (l1 l2 : List Msg) (m : Msg),
        (∀ x ∈ l1, ∃ r, x.role = some r ∧ r ≠ "user") → m.role = none →
        Gemma2Server.do_POST "/v1/chat/completions" (ReqBody.parsed (some (l1 ++ m :: l2)))
          = some ⟨500, RespBody.errJson keyErrorRole⟩
        ∧ FixedGemmaServer.do_POST "/v1/chat/completions" (ReqBody.parsed (some (l1 ++ m :: l2)))
          = some ⟨500, RespBody.errJson keyErrorRole⟩)
    ∧ (∀ (l1 l2 : List Msg) (m : Msg),
        (∀ x ∈ l1, ∃ r, x.role = some r ∧ r ≠ "user") →
        m.role = some "user" → m.content = none →
        Gemma2Server.do_POST "/v1/chat/completions" (ReqBody.parsed (some (l1 ++ m :: l2)))
          = some ⟨500, RespBody.errJson keyErrorContent⟩
        ∧ FixedGemmaServer.do_POST "/v1/chat/completions" (ReqBody.parsed (some (l1 ++ m :: l2)))
          = some ⟨500, RespBody.errJson keyErrorContent⟩)
    ∧ (∀ (l1 : List Msg) (m : Msg) (l2 l2' : List Msg), m.role = some "user" →
        extract_user_query (l1 ++ m :: l2) = extract_user_query (l1 ++ m :: l2')) := by
  refine ⟨?_, ?_, extract_suffix_indep⟩
  · intro l1 l2 m hl1 hm
    have he : extract_user_query (l1 ++ m :: l2) = Except.error keyErrorRole := by
      rw [extract_skip l1 (m :: l2) hl1]
      simp [extract_user_query, hm]
    constructor <;> simp [Gemma2Server.do_POST, FixedGemmaServer.do_POST, he]
  · intro l1 l2 m hl1 hm hc
    have he : extract_user_query (l1 ++ m :: l2) = Except.error keyErrorContent := by
      rw [extract_skip l1 (m :: l2) hl1]
      simp [extract_user_query, hm, hc]
    constructor <;> simp [Gemma2Server.do_POST, FixedGemmaServer.do_POST, he]

/-- C10 witness: the missing-role case at a concrete one-message list. -/
theorem C10_missing_key_500_witness :
    (Msg.mk none none).role = none
    ∧ Gemma2Server.do_POST "/v1/chat/completions"
        (ReqBody.parsed (some ([] ++ Msg.mk none none :: [])))
      = some ⟨500, RespBody.errJson keyErrorRole⟩ :=
  ⟨by rfl,
    (C10_missing_key_500.1 [] [] (Msg.mk none none) (by simp) (by rfl)).1⟩
